import Mathlib

/-!
Shallow embedding of the `useList` data hook
(src/packages/core/src/hooks/data/useList.ts) of the repository.

The hook body is a straight-line sequence of option-merging constants
followed by three calls with computed arguments (a live-update
subscription, a cached query, and a return-value construction).  We embed
each named constant of the hook body as a Lean function of the props and
of the ambient hook context (the values produced by the surrounding
framework hooks: resolved resource, identifier, translate, meta
combinator), and each outward call as a function computing the argument
record that the source passes.  Callbacks that the hook merely invokes
(auth error check, caller callbacks, notification dispatch) are embedded
as an effect trace.

Helpers imported from `@definitions/helpers` (`pickNotDeprecated`,
`handlePaginationParams`, `queryKeys`, `pickDataProvider`) are not part of
the sources; their definitions below are modelled from the specification
text and marked as such in their doc comments.
-/

namespace Refine

/-- JS `Array.prototype.slice(s, e)` for non-negative indices: the
elements with positions in `[s, e)`. -/
def jsSlice {α : Type} (l : List α) (s e : Nat) : List α :=
  (l.take e).drop s

/-- Pagination mode, `"server"` or `"client"` (the spec describes the
derived mode as "server vs. client"). -/
inductive PaginationMode : Type where
  | server : PaginationMode
  | client : PaginationMode
deriving DecidableEq, Repr

/-- A fully resolved pagination descriptor, as produced by
`handlePaginationParams` and consumed by the query function and the
select step. -/
structure Pagination : Type where
  current : Nat
  pageSize : Nat
  mode : PaginationMode
deriving DecidableEq, Repr

/-- A user-supplied (partial) pagination option object: every field may
be left undefined. -/
structure PaginationInput : Type where
  current : Option Nat := none
  pageSize : Option Nat := none
  mode : Option PaginationMode := none
deriving DecidableEq, Repr

/-- The deprecated `config` prop: `{ pagination?, hasPagination?, sort?,
filters? }` (useList.ts, `UseListConfig`). -/
structure UseListConfig (F S : Type) : Type where
  pagination : Option PaginationInput := none
  hasPagination : Option Bool := none
  sort : Option S := none
  filters : Option F := none

/-- Response envelope of `getList`: `{ data, total }` plus whatever other
fields the provider put on the object, kept abstract as `extra` (an
object spread copies them). -/
structure GetListResponse (α γ : Type) : Type where
  data : List α
  total : Nat
  extra : γ

/-- An HTTP error object; the hook reads `statusCode` and `message`. -/
structure ErrObj : Type where
  statusCode : Nat
  message : String
deriving DecidableEq, Repr

/-- The subset of tanstack `queryOptions` the hook consults: `enabled`,
`select`, and the presence of the caller's `onSuccess` / `onError`
callbacks (the callbacks themselves are opaque; the trace records the
value they are handed). -/
structure QueryOptionsE (α γ : Type) : Type where
  enabled : Option Bool := none
  select : Option (GetListResponse α γ → GetListResponse α γ) := none
  hasOnSuccess : Bool := false
  hasOnError : Bool := false

/-- The notification-values object built at useList.ts lines 180-191 and
handed to a functional success/error notification prop. -/
structure NotificationValues (F S M : Type) : Type where
  meta : M
  metaData : M
  filters : Option F
  hasPagination : Bool
  pagination : Pagination
  sorters : Option S
  config : UseListConfig F S

/-- The `errorNotification` prop: absent, a plain config object, or a
function of `(error, values, identifier)` (useList.ts lines 310-313). -/
inductive ErrorNotificationProp (F S M N : Type) : Type where
  | undef : ErrorNotificationProp F S M N
  | config : N → ErrorNotificationProp F S M N
  | func : (ErrObj → NotificationValues F S M → String → Option N) → ErrorNotificationProp F S M N

/-- Overrides spread into the subscription params after the base object
(`...liveParams`, useList.ts line 212): a key that is present replaces
the base value. -/
structure LiveParams (F S M : Type) : Type where
  meta : Option M := none
  metaData : Option M := none
  pagination : Option Pagination := none
  hasPagination : Option Bool := none
  sort : Option (Option S) := none
  sorters : Option (Option S) := none
  filters : Option (Option F) := none
  subscriptionType : Option String := none

/-- The props record accepted by `useList` (the fields the embedded logic
reads). -/
structure UseListProps (F S M α γ N : Type) : Type where
  resource : Option String := none
  config : Option (UseListConfig F S) := none
  filters : Option F := none
  hasPagination : Option Bool := none
  pagination : Option PaginationInput := none
  sorters : Option S := none
  queryOptions : QueryOptionsE α γ := {}
  errorNotification : ErrorNotificationProp F S M N := ErrorNotificationProp.undef
  meta : Option M := none
  metaData : Option M := none
  liveParams : LiveParams F S M := {}
  dataProviderName : Option String := none

/-- A resolved resource entry; the hook reads only its `name`. -/
structure ResourceT : Type where
  name : String
deriving DecidableEq, Repr

/-- The ambient values the hook obtains from the surrounding framework
hooks: the resolved resource and identifier (useResource), the i18n
`translate(key, params, fallback)` function (useTranslate; the only
params object used carries a status code), and the meta combinator
returned by `useMeta`. -/
structure HookCtx (M : Type) : Type where
  resource : Option ResourceT := none
  identifier : String := ""
  translate : String → Nat → String → String := fun _ _ d => d
  getMeta : Option ResourceT → Option M → M

variable {F S M α γ N : Type}

/-- Modelled from the spec: `pickNotDeprecated` lives in
`@definitions/helpers`, outside the sources.  The spec says the hook
merges "deprecated and current option names (last-writer-wins over a
fixed precedence)": the current (first) argument wins whenever it is
defined, otherwise the deprecated one is used. -/
def pickNotDeprecated {β : Type} (current deprecated : Option β) : Option β :=
  match current with
  | some x => some x
  | none => deprecated

/-- `preferredMeta = pickNotDeprecated(meta, metaData)` (useList.ts line 164). -/
def preferredMeta (p : UseListProps F S M α γ N) : Option M :=
  pickNotDeprecated p.meta p.metaData

/-- `prefferedFilters = pickNotDeprecated(filters, config?.filters)`
(useList.ts line 165). -/
def prefferedFilters (p : UseListProps F S M α γ N) : Option F :=
  pickNotDeprecated p.filters (p.config.bind UseListConfig.filters)

/-- `prefferedSorters = pickNotDeprecated(sorters, config?.sort)`
(useList.ts line 166). -/
def prefferedSorters (p : UseListProps F S M α γ N) : Option S :=
  pickNotDeprecated p.sorters (p.config.bind UseListConfig.sort)

/-- `prefferedHasPagination = pickNotDeprecated(hasPagination,
config?.hasPagination)` (useList.ts lines 167-170). -/
def prefferedHasPagination (p : UseListProps F S M α γ N) : Option Bool :=
  pickNotDeprecated p.hasPagination (p.config.bind UseListConfig.hasPagination)

/-- Modelled from the spec: `handlePaginationParams` lives in
`@definitions/helpers`, outside the sources.  The spec says the hook
"derive[s] a pagination mode (server vs. client) from a flag" after
merging deprecated and current options, so we model: the mode comes from
the merged `pagination.mode` / `config.pagination.mode` pair when
defined, and otherwise from the deprecated `hasPagination` flag
(`false` selects client-side, anything else server-side); `current` and
`pageSize` are merged the same way with defaults 1 and 10. -/
def handlePaginationParams (pagination configPagination : Option PaginationInput)
    (hasPagination : Option Bool) : Pagination :=
  { current :=
      (pickNotDeprecated (pagination.bind PaginationInput.current)
        (configPagination.bind PaginationInput.current)).getD 1
    pageSize :=
      (pickNotDeprecated (pagination.bind PaginationInput.pageSize)
        (configPagination.bind PaginationInput.pageSize)).getD 10
    mode :=
      (pickNotDeprecated (pagination.bind PaginationInput.mode)
        (configPagination.bind PaginationInput.mode)).getD
        (match hasPagination with
          | some false => PaginationMode.client
          | _ => PaginationMode.server) }

/-- `prefferedPagination = handlePaginationParams({pagination,
configPagination: config?.pagination, hasPagination:
prefferedHasPagination})` (useList.ts lines 171-175). -/
def prefferedPagination (p : UseListProps F S M α γ N) : Pagination :=
  handlePaginationParams p.pagination (p.config.bind UseListConfig.pagination)
    (prefferedHasPagination p)

/-- `isServerPagination = prefferedPagination.mode === "server"`
(useList.ts line 176). -/
def isServerPagination (p : UseListProps F S M α γ N) : Bool :=
  decide ((prefferedPagination p).mode = PaginationMode.server)

/-- `combinedMeta = getMeta({ resource, meta: preferredMeta })`
(useList.ts line 178). -/
def combinedMeta (p : UseListProps F S M α γ N) (c : HookCtx M) : M :=
  c.getMeta c.resource (preferredMeta p)

/-- The notification-values object (useList.ts lines 180-191): the
merged values, with `config` being the deprecated config prop spread and
its `sort` replaced by the merged sorters. -/
def notificationValues (p : UseListProps F S M α γ N) (c : HookCtx M) :
    NotificationValues F S M :=
  { meta := combinedMeta p c
    metaData := combinedMeta p c
    filters := prefferedFilters p
    hasPagination := isServerPagination p
    pagination := prefferedPagination p
    sorters := prefferedSorters p
    config := { (p.config.getD {}) with sort := prefferedSorters p } }

/-- `isEnabled = queryOptions?.enabled === undefined ||
queryOptions?.enabled === true` (useList.ts lines 193-194). -/
def isEnabled (p : UseListProps F S M α γ N) : Bool :=
  match p.queryOptions.enabled with
  | none => true
  | some b => b

/-- JS template interpolation of `resource?.name`: the name when a
resource resolved, the string "undefined" otherwise. -/
def interpName (r : Option ResourceT) : String :=
  match r with
  | some res => res.name
  | none => "undefined"

/-- The params object passed to `useResourceSubscription` (useList.ts
lines 203-213): the merged values, each key overridable by a key present
in `liveParams` (spread last). -/
structure SubscriptionParams (F S M : Type) : Type where
  meta : M
  metaData : M
  pagination : Pagination
  hasPagination : Bool
  sort : Option S
  sorters : Option S
  filters : Option F
  subscriptionType : String

/-- The argument record of the `useResourceSubscription` call (useList.ts
lines 200-218). -/
structure SubscriptionArgs (F S M : Type) : Type where
  resource : String
  types : List String
  params : SubscriptionParams F S M
  channel : String
  enabled : Bool

/-- Builds the subscription params: base keys from the merged values,
then each key present in `liveParams` wins (`...liveParams`). -/
def useListSubscriptionParams (p : UseListProps F S M α γ N) (c : HookCtx M) :
    SubscriptionParams F S M :=
  { meta := p.liveParams.meta.getD (combinedMeta p c)
    metaData := p.liveParams.metaData.getD (combinedMeta p c)
    pagination := p.liveParams.pagination.getD (prefferedPagination p)
    hasPagination := p.liveParams.hasPagination.getD (isServerPagination p)
    sort := p.liveParams.sort.getD (prefferedSorters p)
    sorters := p.liveParams.sorters.getD (prefferedSorters p)
    filters := p.liveParams.filters.getD (prefferedFilters p)
    subscriptionType := p.liveParams.subscriptionType.getD "useList" }

/-- The single `useResourceSubscription` call the hook makes (useList.ts
lines 200-218): resource `identifier`, all event types, channel
`resources/` + `resource?.name`, enabled per `isEnabled`. -/
def useListSubscription (p : UseListProps F S M α γ N) (c : HookCtx M) :
    SubscriptionArgs F S M :=
  { resource := c.identifier
    types := ["*"]
    params := useListSubscriptionParams p c
    channel := "resources/" ++ interpName c.resource
    enabled := isEnabled p }

/-- The config object built at the `queryKey.list(...)` call site
(useList.ts lines 225-237).  `pagination` is spread in only under server
pagination; `sorters` only when the raw `sorters` prop is defined;
`sort` only when `config?.sort` is defined; an absent key is `none`. -/
structure ListQueryConfig (F S : Type) : Type where
  filters : Option F
  hasPagination : Bool
  pagination : Option Pagination
  sorters : Option S
  sort : Option S

/-- The query-key config the hook passes to `queryKey.list` (useList.ts
lines 225-237). -/
def listQueryConfig (p : UseListProps F S M α γ N) : ListQueryConfig F S :=
  { filters := prefferedFilters p
    hasPagination := isServerPagination p
    pagination :=
      if isServerPagination p then some (prefferedPagination p) else none
    sorters := p.sorters
    sort := p.config.bind UseListConfig.sort }

/-- Modelled from the spec: the `queryKeys` helper lives in
`@definitions/helpers`, outside the sources.  The spec describes
"cache-key ... wiring" keyed per resource and data provider; we model
the list key as the tuple of provider name, resource identifier, the
"list" segment, the call-site config object, and the merged meta the
helper was constructed with. -/
structure QueryKeyList (F S M : Type) : Type where
  providerName : String
  identifier : String
  segment : String
  config : ListQueryConfig F S
  meta : Option M

/-- Modelled from the spec: `pickDataProvider` lives in
`@definitions/helpers`, outside the sources; we model the picked provider
name as the `dataProviderName` prop when given, else "default". -/
def pickedDataProvider (p : UseListProps F S M α γ N) : String :=
  p.dataProviderName.getD "default"

/-- The cache key of the hook's query: `queryKeys(identifier,
pickedDataProvider, preferredMeta).list(config)` (useList.ts lines
196 and 225-237). -/
def useListQueryKey (p : UseListProps F S M α γ N) (c : HookCtx M) :
    QueryKeyList F S M :=
  { providerName := pickedDataProvider p
    identifier := c.identifier
    segment := "list"
    config := listQueryConfig p
    meta := preferredMeta p }

/-- The query context tanstack hands to the query function: the query
key, the page param and the abort signal (the latter two opaque). -/
structure QueryContext (F S M : Type) : Type where
  queryKey : QueryKeyList F S M
  pageParam : Option Nat
  signal : Unit

/-- The meta object passed to `getList`: the combined meta spread plus a
`queryContext` key (useList.ts lines 246-253). -/
structure MetaWithContext (F S M : Type) : Type where
  base : M
  queryContext : QueryContext F S M

/-- The argument record of the `getList` call (useList.ts lines 239-262). -/
structure GetListArgs (F S M : Type) : Type where
  resource : String
  pagination : Pagination
  hasPagination : Bool
  filters : Option F
  sort : Option S
  sorters : Option S
  meta : MetaWithContext F S M
  metaData : MetaWithContext F S M

/-- Builds the arguments the query function passes to `getList`
(useList.ts lines 238-262): `resource?.name ?? ""`, the resolved
pagination, the merged filters and sorters (the latter as both `sort`
and `sorters`), and the combined meta extended with the query context
(duplicated as `metaData`). -/
def useListGetListArgs (p : UseListProps F S M α γ N) (c : HookCtx M)
    (q : QueryContext F S M) : GetListArgs F S M :=
  { resource := (c.resource.map ResourceT.name).getD ""
    pagination := prefferedPagination p
    hasPagination := isServerPagination p
    filters := prefferedFilters p
    sort := prefferedSorters p
    sorters := prefferedSorters p
    meta := { base := combinedMeta p c, queryContext := q }
    metaData := { base := combinedMeta p c, queryContext := q } }

/-- The query function (useList.ts lines 238-263): it returns the
provider's `getList` response unchanged. -/
def useListQueryFn (p : UseListProps F S M α γ N) (c : HookCtx M)
    (getList : GetListArgs F S M → GetListResponse α γ)
    (q : QueryContext F S M) : GetListResponse α γ :=
  getList (useListGetListArgs p c q)

/-- `enabled` of the query options object (useList.ts lines 266-269):
the caller's `enabled` when defined, else `!!resource?.name`. -/
def queryEnabled (p : UseListProps F S M α γ N) (c : HookCtx M) : Bool :=
  match p.queryOptions.enabled with
  | some b => b
  | none => !(((c.resource.map ResourceT.name).getD "").isEmpty)

/-- The data-shaping part of the `select` step (useList.ts lines
271-284): under client-side pagination the data array is replaced by the
slice `[(current - 1) * pageSize, current * pageSize)` (spread keeps the
other fields, `total` is re-assigned to its own value); under server
pagination the response is passed through. -/
def useListSelectData (pg : Pagination) (raw : GetListResponse α γ) :
    GetListResponse α γ :=
  match pg.mode with
  | PaginationMode.client =>
      { raw with
        data := jsSlice raw.data ((pg.current - 1) * pg.pageSize)
          (pg.current * pg.pageSize)
        total := raw.total }
  | PaginationMode.server => raw

/-- The full `select` step (useList.ts lines 270-291): the shaped data is
handed to the caller's `queryOptions.select` when one is given, else
returned as is. -/
def useListSelect (us : Option (GetListResponse α γ → GetListResponse α γ))
    (pg : Pagination) (raw : GetListResponse α γ) : GetListResponse α γ :=
  match us with
  | some f => f (useListSelectData pg raw)
  | none => useListSelectData pg raw

/-- The fallback notification object passed as second argument to
`handleNotification` in the error handler (useList.ts lines 315-324). -/
structure NotificationFallback : Type where
  key : String
  message : String
  description : String
  type : String
deriving DecidableEq, Repr

/-- One observable action of the error handler: the auth error check,
the forward to the caller's `onError`, or the notification dispatch
(carrying the resolved config and the fallback). -/
inductive ErrEffect (N : Type) : Type where
  | checkError : ErrObj → ErrEffect N
  | callerOnError : ErrObj → ErrEffect N
  | notify : Option N → NotificationFallback → ErrEffect N

/-- Resolves the `errorNotification` prop the way the handler does
(useList.ts lines 310-313): call it when it is a function, use it as is
when it is a config object. -/
def resolveErrorNotification (en : ErrorNotificationProp F S M N)
    (err : ErrObj) (v : NotificationValues F S M) (identifier : String) :
    Option N :=
  match en with
  | ErrorNotificationProp.undef => none
  | ErrorNotificationProp.config cfg => some cfg
  | ErrorNotificationProp.func f => f err v identifier

/-- The error handler (useList.ts lines 306-325) as an effect trace:
`checkError(err)`, then the caller's `onError(err)` when present, then
one notification dispatch whose fallback has key
`identifier + "-useList-notification"`, the translated
`notifications.error` message with fallback
`Error (status code: <statusCode>)`, description `err.message` and type
`error`.  Nothing else happens on this path. -/
def useListOnError (p : UseListProps F S M α γ N) (c : HookCtx M)
    (err : ErrObj) : List (ErrEffect N) :=
  [ErrEffect.checkError err]
    ++ (if p.queryOptions.hasOnError then [ErrEffect.callerOnError err] else [])
    ++ [ErrEffect.notify
          (resolveErrorNotification p.errorNotification err
            (notificationValues p c) c.identifier)
          { key := c.identifier ++ "-useList-notification"
            message := c.translate "notifications.error" err.statusCode
              ("Error (status code: " ++ toString err.statusCode ++ ")")
            description := err.message
            type := "error" }]

/-- The tanstack query result object, with its pass-through status
fields. -/
structure QueryObserverResult (α γ : Type) : Type where
  data : Option (GetListResponse α γ)
  error : Option ErrObj
  isLoading : Bool
  isFetching : Bool
  status : String

/-- The `overtime` field added by the hook. -/
structure Overtime : Type where
  elapsedTime : Option Nat
deriving DecidableEq, Repr

/-- The hook's return value: the query result spread plus the `overtime`
field (useList.ts line 335). -/
structure UseListReturn (α γ : Type) extends QueryObserverResult α γ : Type where
  overtime : Overtime

/-- `return { ...queryResponse, overtime: { elapsedTime } }` (useList.ts
line 335); `elapsedTime` is produced by the `useLoadingOvertime` helper. -/
def useListReturn (q : QueryObserverResult α γ) (elapsedTime : Option Nat) :
    UseListReturn α γ :=
  { toQueryObserverResult := q, overtime := { elapsedTime := elapsedTime } }

/-! ## Theorems -/

/-- C1: on a successful raw response, when the resolved pagination mode
is client the select step's data shaping returns a response whose data
field is `rawData.data.slice((current - 1) * pageSize, current *
pageSize)` for the resolved current page and page size, and when the
mode is server the data array is passed through unsliced. -/
theorem select_data_client_slices_server_passes (pg : Pagination)
    (raw : GetListResponse α γ) :
    (useListSelectData pg raw).data =
      (if pg.mode = PaginationMode.client then
        jsSlice raw.data ((pg.current - 1) * pg.pageSize)
          (pg.current * pg.pageSize)
      else raw.data) ∧
    useListSelect none pg raw = useListSelectData pg raw := by
  obtain ⟨cur, ps, mode⟩ := pg
  cases mode <;> simp [useListSelectData, useListSelect]

/-- C3: the resolved pagination descriptor's mode is always either
server or client, and the hook treats the request as server-paginated
exactly when that mode is server. -/
theorem pagination_mode_server_or_client (p : UseListProps F S M α γ N) :
    ((prefferedPagination p).mode = PaginationMode.server ∨
      (prefferedPagination p).mode = PaginationMode.client) ∧
    (isServerPagination p = true ↔
      (prefferedPagination p).mode = PaginationMode.server) := by
  constructor
  · cases h : (prefferedPagination p).mode
    · exact Or.inl rfl
    · exact Or.inr rfl
  · simp [isServerPagination]

/-- C8: under client-side pagination the select step's data shaping
changes only the data field: total and every other field of the
response envelope are returned unchanged. -/
theorem select_client_preserves_frame (pg : Pagination)
    (raw : GetListResponse α γ) (h : pg.mode = PaginationMode.client) :
    (useListSelectData pg raw).total = raw.total ∧
    (useListSelectData pg raw).extra = raw.extra := by
  obtain ⟨cur, ps, mode⟩ := pg
  cases mode
  · exact absurd h (by simp)
  · simp [useListSelectData]

/-- Witness for C8 at a concrete client-mode pagination and response. -/
theorem select_client_preserves_frame_witness :
    (Pagination.mk 2 1 PaginationMode.client).mode = PaginationMode.client ∧
    ((useListSelectData (Pagination.mk 2 1 PaginationMode.client)
        (GetListResponse.mk [10, 20, 30] 3 (7 : Nat) : GetListResponse Nat Nat)).total =
      (GetListResponse.mk [10, 20, 30] 3 (7 : Nat) : GetListResponse Nat Nat).total ∧
      (useListSelectData (Pagination.mk 2 1 PaginationMode.client)
        (GetListResponse.mk [10, 20, 30] 3 (7 : Nat) : GetListResponse Nat Nat)).extra =
      (GetListResponse.mk [10, 20, 30] 3 (7 : Nat) : GetListResponse Nat Nat).extra) :=
  ⟨rfl, select_client_preserves_frame _ _ rfl⟩

/-- C2: each paired current/deprecated option — filters vs
config.filters, sorters vs config.sort, meta vs metaData, hasPagination
vs config.hasPagination — is resolved with the current option winning
whenever it is defined, the deprecated one being used only when the
current one is undefined. -/
theorem deprecated_option_precedence (p : UseListProps F S M α γ N) :
    (∀ x, p.filters = some x → prefferedFilters p = some x) ∧
    (p.filters = none →
      prefferedFilters p = p.config.bind UseListConfig.filters) ∧
    (∀ x, p.sorters = some x → prefferedSorters p = some x) ∧
    (p.sorters = none →
      prefferedSorters p = p.config.bind UseListConfig.sort) ∧
    (∀ x, p.meta = some x → preferredMeta p = some x) ∧
    (p.meta = none → preferredMeta p = p.metaData) ∧
    (∀ x, p.hasPagination = some x → prefferedHasPagination p = some x) ∧
    (p.hasPagination = none →
      prefferedHasPagination p = p.config.bind UseListConfig.hasPagination) := by
  refine ⟨fun x h => ?_, fun h => ?_, fun x h => ?_, fun h => ?_,
    fun x h => ?_, fun h => ?_, fun x h => ?_, fun h => ?_⟩ <;>
    simp [prefferedFilters, prefferedSorters, preferredMeta,
      prefferedHasPagination, pickNotDeprecated, h]

/-- Fixture props for the C2 witness: defined filters and meta, undefined
sorters and hasPagination, deprecated config carrying sort and
hasPagination. -/
def propsC2 : UseListProps Nat Nat Nat Nat Nat Nat :=
  { filters := some 7
    meta := some 3
    config := some { sort := some 5, hasPagination := some true } }

/-- Witness for C2: the current option wins where defined, the deprecated
one is taken where not. -/
theorem deprecated_option_precedence_witness :
    prefferedFilters propsC2 = some 7 ∧
    prefferedSorters propsC2 = propsC2.config.bind UseListConfig.sort ∧
    preferredMeta propsC2 = some 3 ∧
    prefferedHasPagination propsC2 =
      propsC2.config.bind UseListConfig.hasPagination :=
  ⟨(deprecated_option_precedence propsC2).1 7 rfl,
    (deprecated_option_precedence propsC2).2.2.2.1 rfl,
    (deprecated_option_precedence propsC2).2.2.2.2.1 3 rfl,
    (deprecated_option_precedence propsC2).2.2.2.2.2.2.2 rfl⟩

/-- C4: on a query error the hook's error handler forwards the error to
the auth error check and (when present) to the caller's onError, and
dispatches exactly one notification whose fallback has the translate key
notifications.error, templated message `Error (status code: ...)`,
description err.message and type error; nothing else happens on that
path. -/
theorem onError_checks_and_notifies (p : UseListProps F S M α γ N)
    (c : HookCtx M) (err : ErrObj) :
    useListOnError p c err =
      [ErrEffect.checkError err]
        ++ (if p.queryOptions.hasOnError then [ErrEffect.callerOnError err]
            else [])
        ++ [ErrEffect.notify
              (resolveErrorNotification p.errorNotification err
                (notificationValues p c) c.identifier)
              { key := c.identifier ++ "-useList-notification"
                message := c.translate "notifications.error" err.statusCode
                  ("Error (status code: " ++ toString err.statusCode ++ ")")
                description := err.message
                type := "error" }] ∧
    (ErrEffect.callerOnError err ∈ useListOnError p c err (N := N) ↔
      p.queryOptions.hasOnError = true) ∧
    (useListOnError p c err (N := N)).head? = some (ErrEffect.checkError err) := by
  refine ⟨rfl, ?_, ?_⟩ <;>
    cases hb : p.queryOptions.hasOnError <;>
      simp [useListOnError, hb]

/-- C5: the query function calls getList with the resolved resource name
(empty string when none resolves), the resolved pagination, the merged
filters, the merged sorters as both sort and sorters, and the combined
meta extended with the query context, duplicated as metaData; the
provider's response is used as the query result unchanged. -/
theorem queryFn_getList_arguments (p : UseListProps F S M α γ N)
    (c : HookCtx M) (getList : GetListArgs F S M → GetListResponse α γ)
    (q : QueryContext F S M) :
    useListQueryFn p c getList q = getList (useListGetListArgs p c q) ∧
    (useListGetListArgs p c q).resource = (c.resource.map ResourceT.name).getD "" ∧
    (useListGetListArgs p c q).pagination = prefferedPagination p ∧
    (useListGetListArgs p c q).filters = prefferedFilters p ∧
    (useListGetListArgs p c q).sort = prefferedSorters p ∧
    (useListGetListArgs p c q).sorters = prefferedSorters p ∧
    (useListGetListArgs p c q).meta =
      { base := combinedMeta p c, queryContext := q } ∧
    (useListGetListArgs p c q).metaData =
      { base := combinedMeta p c, queryContext := q } :=
  ⟨rfl, rfl, rfl, rfl, rfl, rfl, rfl, rfl⟩

/-- C6: the hook's return value is the query result object spread
unchanged — every pass-through query status field preserved — plus
exactly the one added field overtime, equal to the elapsed time record
from the loading-overtime helper. -/
theorem return_spreads_query_adds_overtime (q : QueryObserverResult α γ)
    (e : Option Nat) :
    (useListReturn q e).toQueryObserverResult = q ∧
    (useListReturn q e).data = q.data ∧
    (useListReturn q e).error = q.error ∧
    (useListReturn q e).isLoading = q.isLoading ∧
    (useListReturn q e).isFetching = q.isFetching ∧
    (useListReturn q e).status = q.status ∧
    (useListReturn q e).overtime = { elapsedTime := e } :=
  ⟨rfl, rfl, rfl, rfl, rfl, rfl, rfl⟩

/-- C7: the one live-update subscription the hook registers targets the
channel `resources/` + the resolved resource's name, subscribes to all
event types, and its params carry the merged pagination, sorters,
filters and meta unless a liveParams key overrides them. -/
theorem subscription_channel_and_params (p : UseListProps F S M α γ N)
    (c : HookCtx M) :
    (∀ r, c.resource = some r →
      (useListSubscription p c).channel = "resources/" ++ r.name) ∧
    (useListSubscription p c).types = ["*"] ∧
    (useListSubscription p c).resource = c.identifier ∧
    (p.liveParams = {} →
      (useListSubscription p c).params.pagination = prefferedPagination p ∧
      (useListSubscription p c).params.sorters = prefferedSorters p ∧
      (useListSubscription p c).params.sort = prefferedSorters p ∧
      (useListSubscription p c).params.filters = prefferedFilters p ∧
      (useListSubscription p c).params.meta = combinedMeta p c) ∧
    (∀ pg, p.liveParams.pagination = some pg →
      (useListSubscription p c).params.pagination = pg) := by
  refine ⟨fun r h => ?_, rfl, rfl, fun h => ?_, fun pg h => ?_⟩
  · simp [useListSubscription, interpName, h]
  · simp [useListSubscription, useListSubscriptionParams, h]
  · simp [useListSubscription, useListSubscriptionParams, h]

/-- Fixture props for the C7 witness: default props, no liveParams
overrides. -/
def propsC7 : UseListProps Nat Nat Nat Nat Nat Nat := {}

/-- Fixture context for the C7 witness: the resource resolves to
`posts`. -/
def ctxC7 : HookCtx Nat :=
  { resource := some (ResourceT.mk "posts")
    identifier := "posts"
    getMeta := fun _ m => m.getD 0 }

/-- Witness for C7 at the concrete fixture: channel and un-overridden
params. -/
theorem subscription_channel_and_params_witness :
    (useListSubscription propsC7 ctxC7).channel =
      "resources/" ++ (ResourceT.mk "posts").name ∧
    (useListSubscription propsC7 ctxC7).params.pagination =
      prefferedPagination propsC7 :=
  ⟨(subscription_channel_and_params propsC7 ctxC7).1 (ResourceT.mk "posts") rfl,
    ((subscription_channel_and_params propsC7 ctxC7).2.2.2.1 rfl).1⟩

/-- Props update changing only the requested page: the pagination prop's
current field is set, everything else is kept. -/
def setCurrent (p : UseListProps F S M α γ N) (cur : Nat) :
    UseListProps F S M α γ N :=
  { p with pagination := some { (p.pagination.getD {}) with current := some cur } }

/-- Changing only the requested page leaves the resolved page size and
mode unchanged and sets the resolved current page. -/
theorem prefferedPagination_setCurrent (p : UseListProps F S M α γ N)
    (cur : Nat) :
    prefferedPagination (setCurrent p cur) =
      { current := cur
        pageSize := (prefferedPagination p).pageSize
        mode := (prefferedPagination p).mode } := by
  cases hp : p.pagination <;>
    simp [setCurrent, prefferedPagination, handlePaginationParams,
      prefferedHasPagination, pickNotDeprecated, hp]

/-- C9: the query cache key records the resolved pagination descriptor
exactly when the resolved mode is server, and always records the merged
filters and the server-pagination flag; under client-side pagination two
invocations that differ only in the requested page produce the same
cache key. -/
theorem query_key_omits_client_pagination (p : UseListProps F S M α γ N)
    (c : HookCtx M) :
    (listQueryConfig p).pagination =
      (if isServerPagination p then some (prefferedPagination p) else none) ∧
    (listQueryConfig p).filters = prefferedFilters p ∧
    (listQueryConfig p).hasPagination = isServerPagination p ∧
    (∀ cur : Nat, isServerPagination p = false →
      useListQueryKey (setCurrent p cur) c = useListQueryKey p c) := by
  refine ⟨rfl, rfl, rfl, fun cur h => ?_⟩
  have hm : (prefferedPagination (setCurrent p cur)).mode =
      (prefferedPagination p).mode := by
    rw [prefferedPagination_setCurrent]
  have hs : isServerPagination (setCurrent p cur) = isServerPagination p := by
    simp [isServerPagination, hm]
  have hf : prefferedFilters (setCurrent p cur) = prefferedFilters p := rfl
  have hsor : (setCurrent p cur).sorters = p.sorters := rfl
  have hcfg : (setCurrent p cur).config = p.config := rfl
  have hmeta : preferredMeta (setCurrent p cur) = preferredMeta p := rfl
  have hdp : pickedDataProvider (setCurrent p cur) = pickedDataProvider p := rfl
  simp [useListQueryKey, listQueryConfig, hs, h, hf, hsor, hcfg, hmeta, hdp]

/-- Fixture props for the C9 witness: client-mode pagination. -/
def propsC9 : UseListProps Nat Nat Nat Nat Nat Nat :=
  { pagination := some { mode := some PaginationMode.client } }

/-- Fixture context for the C9 witness. -/
def ctxC9 : HookCtx Nat :=
  { identifier := "posts", getMeta := fun _ m => m.getD 0 }

/-- Witness for C9: with client-mode pagination, requesting page 5
yields the same cache key as the original props. -/
theorem query_key_omits_client_pagination_witness :
    useListQueryKey (setCurrent propsC9 5) ctxC9 = useListQueryKey propsC9 ctxC9 :=
  (query_key_omits_client_pagination propsC9 ctxC9).2.2.2 5 rfl

/-- C10: a defined queryOptions.enabled drives both the query and the
subscription; an undefined one enables the subscription unconditionally
while the query is enabled exactly when a resource with a non-empty name
resolves — in particular, with undefined enabled and no resolvable
resource the subscription is active while the query is disabled. -/
theorem enabled_query_vs_subscription (p : UseListProps F S M α γ N)
    (c : HookCtx M) :
    (∀ b, p.queryOptions.enabled = some b →
      queryEnabled p c = b ∧ (useListSubscription p c).enabled = b) ∧
    (p.queryOptions.enabled = none →
      (useListSubscription p c).enabled = true ∧
      (queryEnabled p c = true ↔ ∃ r, c.resource = some r ∧ r.name ≠ "")) ∧
    (p.queryOptions.enabled = none → c.resource = none →
      (useListSubscription p c).enabled = true ∧ queryEnabled p c = false) := by
  refine ⟨fun b h => ⟨?_, ?_⟩, fun h => ⟨?_, ?_⟩, fun h hr => ⟨?_, ?_⟩⟩
  · simp [queryEnabled, h]
  · simp [useListSubscription, isEnabled, h]
  · simp [useListSubscription, isEnabled, h]
  · cases hr : c.resource with
    | none =>
        have he : ("" : String).isEmpty = true := rfl
        simp [queryEnabled, h, hr, he]
    | some r =>
        simp [queryEnabled, h, hr]
        rw [Bool.eq_false_iff]
        exact not_congr (String.isEmpty_iff r.name)
  · simp [useListSubscription, isEnabled, h]
  · have he : ("" : String).isEmpty = true := rfl
    simp [queryEnabled, h, hr, he]

/-- Fixture props for the C10 witness: enabled left undefined. -/
def propsC10 : UseListProps Nat Nat Nat Nat Nat Nat := {}

/-- Fixture context for the C10 witness: no resource resolves. -/
def ctxC10 : HookCtx Nat :=
  { resource := none, getMeta := fun _ m => m.getD 0 }

/-- Witness for C10: undefined enabled and no resource — subscription
active, query disabled. -/
theorem enabled_query_vs_subscription_witness :
    (useListSubscription propsC10 ctxC10).enabled = true ∧
    queryEnabled propsC10 ctxC10 = false :=
  (enabled_query_vs_subscription propsC10 ctxC10).2.2 rfl rfl

end Refine

